import Mathlib

/-!
Verification development for the paper-forge job orchestration core.

The Go sources are shallowly embedded:
* `PaperForge.Jobs` embeds the Redis-backed job record store
  (`internal/jobs`: store.go, types.go, manager.go).  The Redis key/value
  state is a function `String → Option Record`; the `WATCH`/`MULTI`
  transaction retry loop of `updatePartial` is modelled as a single
  read-modify-write, which is its exact behaviour in the absence of a
  concurrent writer (the loop re-runs only on `redis.TxFailedErr`).
  Go `time.Time` fields are abstract `Nat` instants threaded as a `now`
  parameter; the untyped `Meta any` payload is an opaque `Option String`.
* `PaperForge.Pdf` embeds the pdf service package (merge/split/jobs
  handlers).  The filesystem is an explicit `World`; external
  collaborators (pdfcpu, Ghostscript, file staging) are oracle
  parameters so that control flow and state effects stay those of the
  source.
-/

namespace PaperForge

namespace Jobs

/-- Job status (`internal/jobs` types.go): `queued`, `running`,
`done` (StatusSucceeded), `error` (StatusFailed). -/
inductive Status where
  | queued
  | running
  | succeeded
  | failed
deriving Repr, DecidableEq

/-- ProgressInfo: `{Percent int; Stage string; Message string}`. -/
structure ProgressInfo where
  percent : Int
  stage : String
  message : String
deriving Repr, DecidableEq

/-- ErrorInfo: `{Code string; Message string}`. -/
structure ErrorInfo where
  code : String
  message : String
deriving Repr, DecidableEq

/-- Record: the externally visible job state.  `Meta any` is modelled as
an opaque `Option String`; the three `time.Time` fields are abstract
instants. -/
structure Record where
  jobID : String
  operation : String
  status : Status
  progress : ProgressInfo
  downloadURL : String
  meta : Option String
  error : Option ErrorInfo
  createdAt : Nat
  updatedAt : Nat
  expiresAt : Nat
deriving Repr, DecidableEq

/-- The Redis key/value state restricted to job records. -/
def KV : Type := String → Option Record

/-- Embeds `jobKey` (store.go): prepends the `job:` namespace to the job id. -/
def jobKey (id : String) : String := "job:" ++ id

/-- Embeds `Store.updatePartial` (store.go).  A missing key
(`redis.Nil`) is the fatal "job not found" condition; otherwise the
mutation is applied to the freshly read record, `UpdatedAt` is
refreshed, and the record is written back.  The optimistic
`TxPipeline` retry loop re-runs only on a concurrent-write conflict,
so sequentially it is this single read-modify-write. -/
def updateRecord (kv : KV) (now : Nat) (jobID : String)
    (mutate : Record → Record) : Except String KV :=
  match kv (jobKey jobID) with
  | none => .error ("job not found: " ++ jobID)
  | some record =>
    let record := mutate record
    let record := { record with updatedAt := now }
    .ok (fun k => if k = jobKey jobID then some record else kv k)

/-- Embeds `Store.UpdateProgress`: overwrites the record's progress field. -/
def updateProgress (kv : KV) (now : Nat) (jobID : String)
    (progress : ProgressInfo) : Except String KV :=
  updateRecord kv now jobID (fun record => { record with progress := progress })

/-- Embeds `Store.MarkDone`: terminal success state. -/
def markDone (kv : KV) (now : Nat) (jobID : String)
    (downloadURL : String) (meta : Option String) : Except String KV :=
  updateRecord kv now jobID (fun record =>
    { record with
        status := .succeeded
        progress := { percent := 100, stage := "completed", message := "" }
        downloadURL := downloadURL
        meta := meta
        error := none })

/-- Embeds `Store.MarkFailed`: terminal failure state; the error field is set
only when a non-nil ErrorInfo is supplied. -/
def markFailed (kv : KV) (now : Nat) (jobID : String)
    (errInfo : Option ErrorInfo) : Except String KV :=
  updateRecord kv now jobID (fun record =>
    let record := { record with status := Status.failed }
    match errInfo with
    | none => record
    | some e => { record with error := some e })

/-- Embeds `Store.Get`: an empty job id is rejected; otherwise the record (or
absence) at the namespaced key is returned. -/
def get (kv : KV) (jobID : String) : Except String (Option Record) :=
  if jobID = "" then .error "jobID is required"
  else .ok (kv (jobKey jobID))

/-- A Go `error` value as seen by `Manager.failJobWithError`
(manager.go): either a `*pdf.Error` (recognised by `errors.As`, carrying
its own code/message and an optional wrapped cause) or any other error. -/
inductive GoError where
  | pdfError (code message : String) (wrapped : Option String)
  | plain (message : String)
deriving Repr, DecidableEq

/-- The Go `Error() string` rendering (pdf.Error prints
`Message: cause` when wrapping; a plain error is its message). -/
def GoError.errText : GoError → String
  | .pdfError _ message (some w) => message ++ ": " ++ w
  | .pdfError _ message none => message
  | .plain m => m

/-- Embeds `Manager.failJob`: marks the record failed with `{code, message}`. -/
def failJob (kv : KV) (now : Nat) (jobID code message : String) :
    Except String KV :=
  markFailed kv now jobID (some { code := code, message := message })

/-- Embeds `Manager.failJobWithError`: a recognised `*pdf.Error` keeps its own
code and message verbatim; any other error collapses to
`INTERNAL_ERROR` with its `Error()` text. -/
def failJobWithError (kv : KV) (now : Nat) (jobID : String)
    (e : GoError) : Except String KV :=
  match e with
  | .pdfError code message _ => failJob kv now jobID code message
  | .plain m => failJob kv now jobID "INTERNAL_ERROR" (GoError.errText (.plain m))

/-- A concrete stored record at 50 percent progress. -/
def rec50 : Record :=
  { jobID := "j", operation := "merge", status := .running
    progress := { percent := 50, stage := "process", message := "" }
    downloadURL := "", meta := none, error := none
    createdAt := 0, updatedAt := 0, expiresAt := 0 }

/-- A store holding exactly the record `rec50` under job id `j`. -/
def kv0 : KV := fun k => if k = "job:j" then some rec50 else none

end Jobs

end PaperForge


namespace PaperForge

namespace Pdf

/-- pdf.Error (merge.go): the structured operation error `{Code,
Message, Err}`; the wrapped cause is irrelevant to the parser claims
and is omitted here (the jobs-side `GoError.pdfError` carries it). -/
structure Error where
  code : String
  message : String
deriving Repr, DecidableEq

/-- PageRange (types.go): 1-based inclusive span; `stop` is the Go
field `End` (a Lean keyword). -/
structure PageRange where
  start : Int
  stop : Int
deriving Repr, DecidableEq

/-- Go `strings.Split(s, sep)` for a single-character separator, on the
character list of the string: splits at every occurrence, keeping empty
fields; the empty string yields one empty field. -/
def splitChar (c : Char) : List Char → List (List Char)
  | [] => [[]]
  | x :: xs =>
    match splitChar c xs with
    | [] => [[x]]
    | y :: ys => if x = c then [] :: y :: ys else (x :: y) :: ys

/-- Go `strings.TrimSpace` on a character list (ASCII whitespace; the
inputs at issue are ASCII digits, hyphens and commas). -/
def trimChars (cs : List Char) : List Char :=
  ((cs.dropWhile Char.isWhitespace).reverse.dropWhile Char.isWhitespace).reverse

/-- Splits at the first occurrence of `c` (Go
`strings.SplitN(s, sep, 2)`); `none` when `c` does not occur
(Go `strings.Contains` is false). -/
def breakAt (c : Char) : List Char → Option (List Char × List Char)
  | [] => none
  | x :: xs =>
    if x = c then some ([], xs)
    else (breakAt c xs).map (fun p => (x :: p.1, p.2))

/-- Digit run to number: `some` only when the list is non-empty and all
digits (Go `strconv.Atoi` body after the optional sign). -/
def digitsToNat : List Char → Option Nat
  | [] => none
  | cs =>
    if cs.all Char.isDigit
    then some (cs.foldl (fun a c => a * 10 + (c.toNat - '0'.toNat)) 0)
    else none

/-- Go `strconv.Atoi`: optional leading sign, then at least one digit,
nothing else.  (Overflow of 64-bit int is not modelled; the parser
claims use small literals.) -/
def atoi : List Char → Option Int
  | [] => none
  | '+' :: rest => (digitsToNat rest).map Int.ofNat
  | '-' :: rest => (digitsToNat rest).map (fun n => -(n : Int))
  | cs => (digitsToNat cs).map Int.ofNat

/-- Embeds `parseSingleRange` (split.go): a segment is either `start-end`
(empty end means the last page) or a single page number; bounds are
checked against `pageCount`.  The Go `len(parts) != 2` branch after
`SplitN` is unreachable (`Contains` guarantees a separator) and has no
counterpart here. -/
def parseSingleRange (seg : List Char) (pageCount : Int) :
    Except Error (Int × Int) :=
  match breakAt '-' seg with
  | some (pre, post) =>
    match atoi (trimChars pre) with
    | none => .error { code := "INVALID_INPUT", message := "範囲開始が整数ではありません。" }
    | some start =>
      match
        (if trimChars post = [] then Except.ok pageCount
         else match atoi (trimChars post) with
           | none => Except.error
               { code := "INVALID_INPUT", message := "範囲終了が整数ではありません。" }
           | some e => Except.ok e : Except Error Int) with
      | .error e => .error e
      | .ok stop =>
        if start < 1 ∨ stop < start ∨ stop > pageCount then
          .error { code := "INVALID_INPUT", message := "範囲指定がページ数の範囲外です。" }
        else .ok (start, stop)
  | none =>
    match atoi seg with
    | none => .error { code := "INVALID_INPUT", message := "ページ番号が整数ではありません。" }
    | some page =>
      if page < 1 ∨ page > pageCount then
        .error { code := "INVALID_INPUT", message := "ページ番号がページ数の範囲外です。" }
      else .ok (page, page)

/-- The `for p := start; p <= end; p++` duplicate check of
`parsePageRanges`: walks `count` pages from `p`, failing on a reuse and
recording each page. -/
def markUsed (used : List Int) (p : Int) : Nat → Except Error (List Int)
  | 0 => .ok used
  | Nat.succ n =>
    if p ∈ used then
      .error { code := "INVALID_INPUT"
               message := "ページ " ++ toString p ++ " が重複しています。" }
    else markUsed (p :: used) (p + 1) n

/-- The main loop of `parsePageRanges` over the comma-separated
segments: trims, parses, enforces strictly ascending order, records
used pages, and rejects any segment placed after a span ending at the
last page (`end == pageCount && i != len(segments)-1`). -/
def parseSegments (pageCount : Int) :
    List (List Char) → Int → List Int → List PageRange →
    Except Error (List PageRange × List Int)
  | [], _, used, acc => .ok (acc.reverse, used)
  | seg :: rest, lastEnd, used, acc =>
    let seg := trimChars seg
    if seg = [] then
      .error { code := "INVALID_INPUT", message := "空の範囲指定が含まれています。" }
    else
      match parseSingleRange seg pageCount with
      | .error e => .error e
      | .ok (start, stop) =>
        if start ≤ lastEnd then
          .error { code := "INVALID_INPUT", message := "ページ範囲は昇順で指定してください。" }
        else
          match markUsed used start (stop - start + 1).toNat with
          | .error e => .error e
          | .ok used' =>
            if stop = pageCount ∧ rest ≠ [] then
              .error { code := "INVALID_INPUT"
                       message := "最終ページ指定の後に追加の範囲を指定することはできません。" }
            else
              parseSegments pageCount rest stop used'
                ({ start := start, stop := stop } :: acc)

/-- Embeds `parsePageRanges` (split.go): validates a range expression against
the source page count and produces the ordered page spans. -/
def parsePageRanges (expr : String) (pageCount : Int) :
    Except Error (List PageRange) :=
  let segments := splitChar ',' expr.data
  if segments.length = 0 then
    .error { code := "INVALID_INPUT", message := "範囲指定の形式が正しくありません。" }
  else
    match parseSegments pageCount segments 0 [] [] with
    | .error e => .error e
    | .ok (ranges, used) =>
      if used.length = 0 then
        .error { code := "INVALID_INPUT", message := "有効なページ範囲が指定されていません。" }
      else .ok ranges


/-- Go `OperationType` is a string type with four known constants. -/
abbrev OperationType := String

/-- JobFile (manifest.go): metadata of one staged input. -/
structure JobFile where
  storedName : String
  originalName : String
  size : Int
  pages : Int
deriving Repr, DecidableEq

/-- JobManifest (manifest.go): the durable record of a job's staged
inputs and parameters, written at prepare time. -/
structure JobManifest where
  jobID : String
  operation : OperationType
  files : List JobFile
  order : List Int
  ranges : String
  preset : String
  createdAt : Nat
deriving Repr, DecidableEq

/-- The staged input files reconstructed from a manifest
(`storedFilesFromManifest`, helpers.go): each lives under the job
directory's `in/` subtree. -/
structure StoredFile where
  path : String
  originalName : String
  size : Int
  pages : Int
deriving Repr, DecidableEq

/-- Takes the last `splitChar '/'` component: Go `filepath.Base` for the
slash-joined paths this model builds. -/
def baseName (s : String) : String :=
  String.mk ((splitChar '/' s.data).getLastD [])

/-- Embeds `toJobFiles` (helpers.go). -/
def toJobFiles (stored : List StoredFile) : List JobFile :=
  stored.map (fun sf =>
    { storedName := baseName sf.path, originalName := sf.originalName
      size := sf.size, pages := sf.pages })

/-- Embeds `storedFilesFromManifest` (helpers.go). -/
def storedFilesFromManifest (jobDir : String) (manifest : JobManifest) :
    List StoredFile :=
  manifest.files.map (fun f =>
    { path := jobDir ++ "/in/" ++ f.storedName
      originalName := f.originalName, size := f.size, pages := f.pages })

/-- A Go error on the pdf service side: a structured `*pdf.Error` or
any other (`fmt.Errorf`) error. -/
inductive GoErr where
  | api (e : Error)
  | internal (msg : String)
deriving Repr, DecidableEq

/-- The pdf `Result` (types.go), with its unexported `jobDir` used by
`Cleanup`.  The untyped `Meta` payload is omitted: no claim inspects
it through `Result`. -/
structure Result where
  jobID : String
  operation : OperationType
  outputPath : String
  outputFilename : String
  outputSize : Int
  resultKind : String
  jobDir : String
deriving Repr, DecidableEq

/-- The scratch filesystem visible to the orchestration core: the set
of existing job directories, the manifest file per job directory, and
the staged input files (keyed by job directory) under each `in/`
subtree. -/
structure World where
  dirs : List String
  manifests : List (String × JobManifest)
  staged : List (String × String)
deriving Repr

/-- Workspace (workspace.go): the per-job directory pair derived from
the temp root and the job id (`filepath.Join` is `++ "/" ++` for the
clean components the service produces). -/
structure Workspace where
  jobID : String
  dir : String
  inDir : String
  outDir : String
deriving Repr, DecidableEq

/-- Embeds `Service.workspaceFor` (part of service.go): deterministic layout
from the job id; `createWorkspace` builds the same layout for a fresh
id. -/
def workspaceFor (tmpRoot jobID : String) : Workspace :=
  { jobID := jobID
    dir := tmpRoot ++ "/" ++ jobID
    inDir := tmpRoot ++ "/" ++ jobID ++ "/in"
    outDir := tmpRoot ++ "/" ++ jobID ++ "/out" }

/-- Embeds `removeDir` (service.go): a blank path is a no-op; otherwise
`os.RemoveAll` deletes the directory recursively — here, the directory
entry and everything keyed by it. -/
def removeDir (path : String) (w : World) : World :=
  if trimChars path.data = [] then w
  else
    { dirs := w.dirs.filter (fun d => d ≠ path)
      manifests := w.manifests.filter (fun m => m.1 ≠ path)
      staged := w.staged.filter (fun f => f.1 ≠ path) }

/-- Embeds `Service.DiscardJob` (service.go): best-effort workspace removal
for a prepared-but-never-executed job; a blank job id is a no-op. -/
def discardJob (tmpRoot jobID : String) (w : World) : World :=
  if trimChars jobID.data = [] then w
  else removeDir (workspaceFor tmpRoot jobID).dir w

/-- Embeds `Result.Cleanup` (types.go): removes the job directory backing the
result (`sync.Once` only makes repeats no-ops). -/
def Result.cleanup (r : Result) (w : World) : World :=
  removeDir r.jobDir w

/-- Embeds `loadManifest` (manifest.go) against the modelled filesystem: a
missing manifest file is the distinct "failed to read manifest"
condition. -/
def loadManifest (w : World) (jobDir : String) : Except String JobManifest :=
  match w.manifests.lookup jobDir with
  | none => .error "failed to read manifest"
  | some m => .ok m

/-- Embeds `Service.RunJob` (jobs.go).  The four `execute*` calls are one
oracle `exec` (they delegate to pdfcpu/Ghostscript); an execute-time
failure leaves the directory untouched by the executor itself, and
`RunJob` then removes the whole workspace.  The model keeps the exact
guard order: empty job id, missing manifest, missing operation, empty
file list, unknown operation, then dispatch. -/
def runJob (tmpRoot jobID : String)
    (exec : OperationType → List StoredFile → Except GoErr Result)
    (w : World) : Except GoErr Result × World :=
  if jobID = "" then (.error (.internal "jobID is required"), w)
  else
    let ws := workspaceFor tmpRoot jobID
    match loadManifest w ws.dir with
    | .error e => (.error (.internal e), removeDir ws.dir w)
    | .ok manifest =>
      if manifest.operation = "" then
        (.error (.internal "manifest missing operation"), removeDir ws.dir w)
      else
        let stored := storedFilesFromManifest ws.dir manifest
        if stored.length = 0 then
          (.error (.internal "manifest has no input files"), removeDir ws.dir w)
        else if manifest.operation = "merge" ∨ manifest.operation = "reorder"
            ∨ manifest.operation = "split" ∨ manifest.operation = "optimize" then
          match exec manifest.operation stored with
          | .error e => (.error e, removeDir ws.dir w)
          | .ok r => (.ok r, w)
        else
          (.error (.internal ("unsupported operation: " ++ manifest.operation)),
            removeDir ws.dir w)

/-- Embeds `maxUploadFiles` (service.go). -/
def maxUploadFiles : Nat := 20

/-- Embeds `MaxUploadTotalBytes` (service.go): 300MB aggregate ceiling. -/
def maxUploadTotalBytes : Int := 300 * 1024 * 1024

/-- One uploaded `multipart.FileHeader` as the merge validator sees it. -/
structure UploadFile where
  filename : String
  size : Int
deriving Repr, DecidableEq

/-- The order-array scan of `validateMergeInputs`: each index must be
in `[0, n)` and unseen; the first violation is reported. -/
def checkOrderEntries (n : Int) (seen : List Int) :
    List Int → Except Error Unit
  | [] => .ok ()
  | idx :: rest =>
    if idx < 0 ∨ idx ≥ n then
      .error { code := "INVALID_INPUT"
               message := "order配列に不正な番号が含まれています。" }
    else if idx ∈ seen then
      .error { code := "INVALID_INPUT"
               message := "order配列に重複した番号が含まれています。" }
    else checkOrderEntries n (idx :: seen) rest

/-- Embeds `validateMergeInputs` (service.go): file-count limits, then — only
when an order array was supplied — length match and the per-entry
range/duplicate scan. -/
def validateMergeInputs (files : List UploadFile) (order : List Int) :
    Except Error Unit :=
  if files.length = 0 then
    .error { code := "INVALID_INPUT"
             message := "少なくとも1つのPDFファイルを選択してください。" }
  else if files.length > maxUploadFiles then
    .error { code := "LIMIT_EXCEEDED"
             message := "アップロードできるPDFは最大" ++ toString maxUploadFiles ++ "件までです。" }
  else if 0 < order.length then
    if order.length ≠ files.length then
      .error { code := "INVALID_INPUT"
               message := "order配列の長さがファイル数と一致していません。" }
    else checkOrderEntries (files.length : Int) [] order
  else .ok ()

/-- What `storeMultipartFile` learns about one staged input (original
name, written byte count, page count); sniffing, size/page ceilings and
I/O failures are the oracle's error outcomes. -/
structure StagedMeta where
  originalName : String
  size : Int
  pages : Int
deriving Repr, DecidableEq

/-- The `%02d.pdf` stored filename of input `i`. -/
def storedBaseName (i : Nat) : String :=
  (if i < 10 then "0" else "") ++ toString i ++ ".pdf"

/-- The staging loop of `prepareMerge`: each input is stored under
`in/%02d.pdf` via the `store` oracle, the running byte total is checked
against the aggregate ceiling, and the first failure aborts. -/
def stageFiles (store : Nat → UploadFile → Except Error StagedMeta)
    (ws : Workspace) :
    Nat → Int → List UploadFile → World → Except GoErr (List StoredFile) × World
  | _, _, [], w => (.ok [], w)
  | i, total, f :: fs, w =>
    match store i f with
    | .error e => (.error (.api e), w)
    | .ok sm =>
      let total' := total + sm.size
      if total' > maxUploadTotalBytes then
        (.error (.api { code := "LIMIT_EXCEEDED"
                        message := "アップロードされたファイル全体のサイズが上限(300MB)を超えています。" }), w)
      else
        let sf : StoredFile :=
          { path := ws.inDir ++ "/" ++ storedBaseName i
            originalName := sm.originalName, size := sm.size, pages := sm.pages }
        let w' := { w with staged := (ws.dir, storedBaseName i) :: w.staged }
        match stageFiles store ws (i + 1) total' fs w' with
        | (.error e, w2) => (.error e, w2)
        | (.ok rest, w2) => (.ok (sf :: rest), w2)

/-- Embeds `Service.prepareMerge` (service.go): creates the workspace, stages
every input, writes the manifest, and on any failure removes the whole
workspace again (the source removes it at each failing branch; hoisting
the removal to the error exit leaves the same final state). -/
def prepareMerge (tmpRoot jobID : String) (now : Nat)
    (store : Nat → UploadFile → Except Error StagedMeta)
    (writeManifestOk : Bool)
    (files : List UploadFile) (order : List Int) (w : World) :
    Except GoErr (List StoredFile × JobManifest) × World :=
  let ws := workspaceFor tmpRoot jobID
  let w1 := { w with dirs := ws.dir :: w.dirs }
  match stageFiles store ws 0 0 files w1 with
  | (.error e, w2) => (.error e, removeDir ws.dir w2)
  | (.ok storedFiles, w2) =>
    let manifest : JobManifest :=
      { jobID := jobID, operation := "merge", files := toJobFiles storedFiles
        order := order, ranges := "", preset := "", createdAt := now }
    if writeManifestOk then
      (.ok (storedFiles, manifest),
        { w2 with manifests := (ws.dir, manifest) :: w2.manifests })
    else
      (.error (.internal "ジョブマニフェストの保存に失敗しました"), removeDir ws.dir w2)

/-- Embeds `Service.PrepareMergeJob` (service.go): validates the request, and
only then creates and populates a workspace. -/
def prepareMergeJob (tmpRoot jobID : String) (now : Nat)
    (store : Nat → UploadFile → Except Error StagedMeta)
    (writeManifestOk : Bool)
    (files : List UploadFile) (order : List Int) (w : World) :
    Except GoErr JobManifest × World :=
  match validateMergeInputs files order with
  | .error e => (.error (.api e), w)
  | .ok _ =>
    match prepareMerge tmpRoot jobID now store writeManifestOk files order w with
    | (.error e, w') => (.error e, w')
    | (.ok (_, manifest), w') => (.ok manifest, w')

/-- HandlerOptions (handlers.go): the optional scheduler (its
`Schedule` call is the contained function) and the two async
thresholds. -/
structure HandlerOptions where
  scheduler : Option (OperationType → String → Except GoErr Unit)
  asyncThresholdBytes : Int
  asyncThresholdPages : Int

/-- Aggregate staged byte size of a manifest's files. -/
def totalStagedBytes (m : JobManifest) : Int :=
  m.files.foldl (fun acc f => acc + f.size) 0

/-- Aggregate staged page count of a manifest's files. -/
def totalStagedPages (m : JobManifest) : Int :=
  m.files.foldl (fun acc f => acc + f.pages) 0

/-- Embeds `shouldProcessAsync` (handlers.go): false without a manifest or a
scheduler; otherwise true as soon as a positive byte threshold is
exceeded by the aggregate size, or a positive page threshold by the
aggregate page count.  Pure: a plain function of its two arguments. -/
def shouldProcessAsync (manifest : Option JobManifest)
    (opts : HandlerOptions) : Bool :=
  match manifest, opts.scheduler with
  | none, _ => false
  | some _, none => false
  | some m, some _ =>
    if 0 < opts.asyncThresholdBytes ∧
        totalStagedBytes m > opts.asyncThresholdBytes then true
    else if 0 < opts.asyncThresholdPages ∧
        totalStagedPages m > opts.asyncThresholdPages then true
    else false

/-- What the merge handler sends back: an HTTP 4xx/5xx error body via
`respondWithError`, the 202 `{jobId}` acknowledgement, or the streamed
result. -/
inductive Response where
  | failed (e : GoErr)
  | accepted (jobID : String)
  | streamed (r : Result)

/-- Embeds `MergeHandler` (handlers.go) from the `PrepareMergeJob` call on
(multipart parsing and `parseOrder` are HTTP-layer concerns outside
the core).  `prepare` and `run` stand for the service calls; a
scheduling failure discards the prepared workspace and surfaces the
failure (`DiscardJob` cannot fail in the modelled filesystem, so the
error is surfaced as-is); the inline path streams the result and then
runs the deferred `Result.Cleanup`. -/
def mergeHandler (tmpRoot : String) (opts : HandlerOptions)
    (prepare : World → Except GoErr JobManifest × World)
    (run : String → World → Except GoErr Result × World)
    (w : World) : Response × World :=
  match prepare w with
  | (.error e, w1) => (.failed e, w1)
  | (.ok manifest, w1) =>
    if shouldProcessAsync (some manifest) opts then
      match opts.scheduler with
      | none => (.failed (.internal "scheduler is nil"), w1)
      | some sched =>
        match sched manifest.operation manifest.jobID with
        | .error e => (.failed e, discardJob tmpRoot manifest.jobID w1)
        | .ok _ => (.accepted manifest.jobID, w1)
    else
      match run manifest.jobID w1 with
      | (.error e, w2) => (.failed e, w2)
      | (.ok r, w2) => (.streamed r, Result.cleanup r w2)

/-- Embeds `reportProgress` (progress.go): nil callback is a no-op; otherwise
the percent is clamped into [0,100] before the callback runs.  The
callback invocation is the returned `some` value. -/
def reportProgress {α : Type} (cb : Option (String → Int → α))
    (stage : String) (percent : Int) : Option α :=
  match cb with
  | none => none
  | some f =>
    let p := if percent < 0 then 0 else percent
    let p := if p > 100 then 100 else p
    some (f stage p)

end Pdf

end PaperForge

/-- C1 (counterexample): the claim says a stored percent of 50 stays
`≥ 50` after any `updateProgress`; in fact `updateProgress` with
percent 10 leaves the stored percent at 10, and `10 ≥ 50` is false.
The mutation function blindly overwrites `record.Progress`; no
monotonic-max is applied. -/
theorem progress_overwrite_counterexample :
    (PaperForge.Jobs.updateProgress PaperForge.Jobs.kv0 1 "j"
        { percent := 10, stage := "process", message := "" }).toOption.map
      (fun kv => (kv (PaperForge.Jobs.jobKey "j")).map
        (fun r => r.progress.percent)) = some (some 10)
  ∧ (PaperForge.Jobs.kv0 (PaperForge.Jobs.jobKey "j")).map
      (fun r => r.progress.percent) = some 50
  ∧ ¬ ((10 : Int) ≥ 50) :=
  ⟨rfl, rfl, by decide⟩

/-- C1 (amended): `Store.UpdateProgress` is last-write-wins, not
monotonic-max: for any existing record `r`, a successful
`updateProgress` stores exactly the supplied progress (whose percent
may be lower than the previous one), refreshing only `updatedAt`.
Monotonicity of observed percents is not enforced by the store. -/
theorem updateProgress_last_write_wins (kv : PaperForge.Jobs.KV)
    (now : Nat) (jobID : String) (q : PaperForge.Jobs.ProgressInfo)
    (r : PaperForge.Jobs.Record)
    (h : kv (PaperForge.Jobs.jobKey jobID) = some r) :
    PaperForge.Jobs.updateProgress kv now jobID q =
      .ok (fun k => if k = PaperForge.Jobs.jobKey jobID
        then some { r with progress := q, updatedAt := now }
        else kv k) := by
  simp [PaperForge.Jobs.updateProgress, PaperForge.Jobs.updateRecord, h]

/-- C1 amended, witnessed at the concrete store `kv0`. -/
theorem updateProgress_last_write_wins_witness :
    PaperForge.Jobs.updateProgress PaperForge.Jobs.kv0 1 "j"
        { percent := 10, stage := "process", message := "" } =
      .ok (fun k => if k = PaperForge.Jobs.jobKey "j"
        then some { PaperForge.Jobs.rec50 with
          progress := { percent := 10, stage := "process", message := "" }
          updatedAt := 1 }
        else PaperForge.Jobs.kv0 k) :=
  updateProgress_last_write_wins PaperForge.Jobs.kv0 1 "j"
    { percent := 10, stage := "process", message := "" }
    PaperForge.Jobs.rec50 rfl

/-- C8: when no record exists under the job's key, `updateProgress`,
`markDone` and `markFailed` all fail with the fatal "job not found"
error and return no store state at all — in particular none of them
creates a record. -/
theorem missing_record_update_fails (kv : PaperForge.Jobs.KV)
    (now : Nat) (jobID : String) (q : PaperForge.Jobs.ProgressInfo)
    (url : String) (meta : Option String)
    (errInfo : Option PaperForge.Jobs.ErrorInfo)
    (h : kv (PaperForge.Jobs.jobKey jobID) = none) :
    PaperForge.Jobs.updateProgress kv now jobID q =
        .error ("job not found: " ++ jobID)
  ∧ PaperForge.Jobs.markDone kv now jobID url meta =
        .error ("job not found: " ++ jobID)
  ∧ PaperForge.Jobs.markFailed kv now jobID errInfo =
        .error ("job not found: " ++ jobID) := by
  refine ⟨?_, ?_, ?_⟩ <;>
    simp [PaperForge.Jobs.updateProgress, PaperForge.Jobs.markDone,
      PaperForge.Jobs.markFailed, PaperForge.Jobs.updateRecord, h]

/-- C8, witnessed on the empty store. -/
theorem missing_record_update_fails_witness :
    PaperForge.Jobs.updateProgress (fun _ => none) 0 "ghost"
        { percent := 5, stage := "load", message := "" } =
        .error ("job not found: " ++ "ghost")
  ∧ PaperForge.Jobs.markDone (fun _ => none) 0 "ghost" "/dl" none =
        .error ("job not found: " ++ "ghost")
  ∧ PaperForge.Jobs.markFailed (fun _ => none) 0 "ghost" none =
        .error ("job not found: " ++ "ghost") :=
  missing_record_update_fails (fun _ => none) 0 "ghost"
    { percent := 5, stage := "load", message := "" } "/dl" none none rfl

/-- C9: when the async worker's execute step fails on a job with an
existing record, `failJobWithError` marks the record `error` with a
structured code/message: a recognised pdf operation error keeps exactly
its own code and message (no translation loss, independent of any
wrapped cause), and any other error is recorded as `INTERNAL_ERROR`
with its rendered message. -/
theorem failJobWithError_taxonomy (kv : PaperForge.Jobs.KV)
    (now : Nat) (jobID : String) (r : PaperForge.Jobs.Record)
    (code message wmsg m : String)
    (h : kv (PaperForge.Jobs.jobKey jobID) = some r) :
    PaperForge.Jobs.failJobWithError kv now jobID
        (.pdfError code message (some wmsg)) =
      .ok (fun k => if k = PaperForge.Jobs.jobKey jobID
        then some { r with
          status := .failed
          error := some { code := code, message := message }
          updatedAt := now }
        else kv k)
  ∧ PaperForge.Jobs.failJobWithError kv now jobID (.plain m) =
      .ok (fun k => if k = PaperForge.Jobs.jobKey jobID
        then some { r with
          status := .failed
          error := some { code := "INTERNAL_ERROR", message := m }
          updatedAt := now }
        else kv k) := by
  constructor <;>
    simp [PaperForge.Jobs.failJobWithError, PaperForge.Jobs.failJob,
      PaperForge.Jobs.markFailed, PaperForge.Jobs.updateRecord,
      PaperForge.Jobs.GoError.errText, h]

/-- C9, witnessed at the concrete store `kv0`. -/
theorem failJobWithError_taxonomy_witness :
    PaperForge.Jobs.failJobWithError PaperForge.Jobs.kv0 2 "j"
        (.pdfError "UNSUPPORTED_PDF" "broken file" (some "eof")) =
      .ok (fun k => if k = PaperForge.Jobs.jobKey "j"
        then some { PaperForge.Jobs.rec50 with
          status := .failed
          error := some { code := "UNSUPPORTED_PDF", message := "broken file" }
          updatedAt := 2 }
        else PaperForge.Jobs.kv0 k)
  ∧ PaperForge.Jobs.failJobWithError PaperForge.Jobs.kv0 2 "j"
        (.plain "io timeout") =
      .ok (fun k => if k = PaperForge.Jobs.jobKey "j"
        then some { PaperForge.Jobs.rec50 with
          status := .failed
          error := some { code := "INTERNAL_ERROR", message := "io timeout" }
          updatedAt := 2 }
        else PaperForge.Jobs.kv0 k) :=
  failJobWithError_taxonomy PaperForge.Jobs.kv0 2 "j" PaperForge.Jobs.rec50
    "UNSUPPORTED_PDF" "broken file" "eof" "io timeout" rfl

/-- C2 (counterexample): the claim says `"1-3,7,12-"` against a 12-page
source is rejected as InvalidInput; in fact `parsePageRanges` accepts
it, returning the spans (1,3), (7,7), (12,12) — it is not an error of
any kind. -/
theorem trailing_final_span_counterexample :
    PaperForge.Pdf.parsePageRanges "1-3,7,12-" 12 =
      .ok [{ start := 1, stop := 3 }, { start := 7, stop := 7 },
           { start := 12, stop := 12 }] := rfl

/-- C2 (amended): for a 12-page source, `"1-3,7,12-"` parses
successfully to [(1,3),(7,7),(12,12)] — the final-page rule only
rejects a segment that comes after a span ending at the last page, and
`"12-"` is itself the last segment.  When a segment does follow such a
span (e.g. `"1-3,7-12,4"`), the InvalidInput rejection fires. -/
theorem trailing_final_span_parses :
    PaperForge.Pdf.parsePageRanges "1-3,7,12-" 12 =
      .ok [{ start := 1, stop := 3 }, { start := 7, stop := 7 },
           { start := 12, stop := 12 }]
  ∧ PaperForge.Pdf.parsePageRanges "1-3,7-12,4" 12 =
      .error { code := "INVALID_INPUT"
               message := "最終ページ指定の後に追加の範囲を指定することはできません。" } :=
  ⟨rfl, rfl⟩

/-- C3: for a 12-page source, `"1-3,7,10-"` parses to exactly
[(1,3),(7,7),(10,12)] in order (empty end runs to the last page), while
`"3-1"` (end before start) and `"1-3,2"` (page reused / out of order)
are rejected as InvalidInput. -/
theorem parse_ranges_roundtrip :
    PaperForge.Pdf.parsePageRanges "1-3,7,10-" 12 =
      .ok [{ start := 1, stop := 3 }, { start := 7, stop := 7 },
           { start := 10, stop := 12 }]
  ∧ PaperForge.Pdf.parsePageRanges "3-1" 12 =
      .error { code := "INVALID_INPUT"
               message := "範囲指定がページ数の範囲外です。" }
  ∧ PaperForge.Pdf.parsePageRanges "1-3,2" 12 =
      .error { code := "INVALID_INPUT"
               message := "ページ範囲は昇順で指定してください。" } :=
  ⟨rfl, rfl, rfl⟩

open PaperForge.Pdf

/-- Helper: removing a directory with a non-blank path really removes
it from the filesystem model. -/
theorem removeDir_not_mem_dirs (p : String) (w : World)
    (h : trimChars p.data ≠ []) :
    p ∉ (removeDir p w).dirs := by
  simp [removeDir, h]

/-- Helper: the order-entry scan succeeds exactly when every entry is
in `[0, n)`, no entry repeats, and no entry was already seen. -/
theorem checkOrderEntries_ok_iff (n : Int) (order : List Int) :
    ∀ seen : List Int,
      checkOrderEntries n seen order = .ok () ↔
        ((∀ x ∈ order, 0 ≤ x ∧ x < n) ∧ order.Nodup ∧ ∀ x ∈ order, x ∉ seen) := by
  induction order with
  | nil => intro seen; simp [checkOrderEntries]
  | cons a l ih =>
    intro seen
    rw [checkOrderEntries]
    by_cases h1 : a < 0 ∨ a ≥ n
    · rw [if_pos h1]
      constructor
      · intro h; exact absurd h (by simp)
      · rintro ⟨hb, -, -⟩
        have := hb a (List.mem_cons_self a l)
        omega
    · rw [if_neg h1]
      by_cases h2 : a ∈ seen
      · rw [if_pos h2]
        constructor
        · intro h; exact absurd h (by simp)
        · rintro ⟨-, -, hns⟩
          exact absurd h2 (hns a (List.mem_cons_self a l))
      · rw [if_neg h2, ih (a :: seen)]
        constructor
        · rintro ⟨hb, hnd, hns⟩
          refine ⟨?_, ?_, ?_⟩
          · intro x hx
            rcases List.mem_cons.mp hx with rfl | hx
            · omega
            · exact hb x hx
          · exact List.nodup_cons.mpr
              ⟨fun hal => (hns a hal) (List.mem_cons_self a seen), hnd⟩
          · intro x hx
            rcases List.mem_cons.mp hx with rfl | hx
            · exact h2
            · exact fun hxs => (hns x hx) (List.mem_cons_of_mem a hxs)
        · rintro ⟨hb, hnd, hns⟩
          have hnd' := List.nodup_cons.mp hnd
          refine ⟨?_, hnd'.2, ?_⟩
          · exact fun x hx => hb x (List.mem_cons_of_mem a hx)
          · intro x hx hxs
            rcases List.mem_cons.mp hxs with rfl | hxs
            · exact hnd'.1 hx
            · exact (hns x (List.mem_cons_of_mem a hx)) hxs

/-- Helper: a list of integers is a permutation of `[0..N-1]` exactly
when it has length `N`, no duplicates, and all entries in `[0, N)`. -/
theorem int_perm_range_iff (N : Nat) (order : List Int) :
    order.Perm ((List.range N).map (fun k : Nat => (k : Int))) ↔
      (order.length = N ∧ order.Nodup ∧ ∀ x ∈ order, 0 ≤ x ∧ x < (N : Int)) := by
  have htlen : ((List.range N).map (fun k : Nat => (k : Int))).length = N := by simp
  have htnd : ((List.range N).map (fun k : Nat => (k : Int))).Nodup :=
    (List.nodup_range N).map (fun a b h => Nat.cast_injective h)
  constructor
  · intro hp
    refine ⟨hp.length_eq.trans htlen, hp.nodup_iff.mpr htnd, ?_⟩
    intro x hx
    have hxm := hp.subset hx
    rcases List.mem_map.mp hxm with ⟨k, hk, rfl⟩
    have := List.mem_range.mp hk
    omega
  · rintro ⟨hlen, hnd, hb⟩
    have hsub : order ⊆ (List.range N).map (fun k : Nat => (k : Int)) := by
      intro x hx
      rcases hb x hx with ⟨h0, hN⟩
      refine List.mem_map.mpr ⟨x.toNat, List.mem_range.mpr (by omega), ?_⟩
      omega
    exact (List.subperm_of_subset hnd hsub).perm_of_length_le
      (by rw [htlen, hlen])

/-- C4: with a scheduler configured and both thresholds positive, the
dispatch decision is exactly "aggregate staged bytes exceed the byte
threshold OR aggregate staged pages exceed the page threshold" (so
either one alone routes async); and with no scheduler configured the
decision is false for every manifest.  `shouldProcessAsync` is a pure
function of the manifest and options. -/
theorem shouldProcessAsync_spec (m : JobManifest) (opts : HandlerOptions)
    (hb : 0 < opts.asyncThresholdBytes) (hp : 0 < opts.asyncThresholdPages)
    (hs : opts.scheduler.isSome = true) :
    (shouldProcessAsync (some m) opts = true ↔
      totalStagedBytes m > opts.asyncThresholdBytes ∨
      totalStagedPages m > opts.asyncThresholdPages)
  ∧ ∀ (m' : Option JobManifest) (b p : Int),
      shouldProcessAsync m'
        { scheduler := none, asyncThresholdBytes := b,
          asyncThresholdPages := p } = false := by
  constructor
  · rcases Option.isSome_iff_exists.mp hs with ⟨sched, hsched⟩
    simp only [shouldProcessAsync, hsched]
    split_ifs with h1 h2
    · simp only [true_iff]
      exact Or.inl h1.2
    · simp only [true_iff]
      exact Or.inr h2.2
    · simp only [false_iff]
      push_neg at h1 h2
      intro hor
      rcases hor with hby | hpg
      · exact absurd hby (by simpa using h1 hb)
      · exact absurd hpg (by simpa using h2 hp)
  · intro m' b p
    cases m' <;> rfl

/-- C4, witnessed: one staged file of 200 bytes and 3 pages against a
100-byte / 1000-page threshold pair routes async by size alone. -/
theorem shouldProcessAsync_spec_witness :
    (shouldProcessAsync
        (some { jobID := "j", operation := "merge"
                files := [{ storedName := "00.pdf", originalName := "a.pdf"
                            size := 200, pages := 3 }]
                order := [], ranges := "", preset := "", createdAt := 0 })
        { scheduler := some (fun _ _ => .ok ())
          asyncThresholdBytes := 100, asyncThresholdPages := 1000 } = true ↔
      totalStagedBytes
          { jobID := "j", operation := "merge"
            files := [{ storedName := "00.pdf", originalName := "a.pdf"
                        size := 200, pages := 3 }]
            order := [], ranges := "", preset := "", createdAt := 0 } > 100 ∨
      totalStagedPages
          { jobID := "j", operation := "merge"
            files := [{ storedName := "00.pdf", originalName := "a.pdf"
                        size := 200, pages := 3 }]
            order := [], ranges := "", preset := "", createdAt := 0 } > 1000)
  ∧ ∀ (m' : Option JobManifest) (b p : Int),
      shouldProcessAsync m'
        { scheduler := none, asyncThresholdBytes := b,
          asyncThresholdPages := p } = false :=
  shouldProcessAsync_spec
    { jobID := "j", operation := "merge"
      files := [{ storedName := "00.pdf", originalName := "a.pdf"
                  size := 200, pages := 3 }]
      order := [], ranges := "", preset := "", createdAt := 0 }
    { scheduler := some (fun _ _ => .ok ())
      asyncThresholdBytes := 100, asyncThresholdPages := 1000 }
    (by decide) (by decide) rfl

/-- C10: `reportProgress` with a non-nil callback always hands the
callback `max 0 (min 100 percent)` — a value inside [0,100] — for any
stage and percent, and a nil callback makes it a no-op; hence no
executor can deliver an out-of-range percent to the progress
reporter. -/
theorem reportProgress_clamps (α : Type) (f : String → Int → α)
    (stage : String) (percent : Int) :
    reportProgress (some f) stage percent =
      some (f stage (max 0 (min 100 percent)))
  ∧ reportProgress (none : Option (String → Int → α)) stage percent = none
  ∧ (0 : Int) ≤ max 0 (min 100 percent)
  ∧ max 0 (min 100 percent) ≤ 100 := by
  refine ⟨?_, rfl, le_max_left 0 _, by omega⟩
  have harith :
      (if (if percent < 0 then (0 : Int) else percent) > 100 then (100 : Int)
       else if percent < 0 then 0 else percent) = max 0 (min 100 percent) := by
    split_ifs <;> omega
  simp only [reportProgress]
  rw [harith]

/-- C5: for a combine request within the file-count limits and with a
non-empty order array, `validateMergeInputs` accepts exactly when the
array is a permutation of `[0..N-1]` (wrong length, out-of-range and
duplicate entries are all rejected); and whenever validation rejects,
`PrepareMergeJob` returns that error with the filesystem untouched —
no workspace is created and nothing is staged. -/
theorem merge_order_validation_spec (files : List UploadFile)
    (order : List Int) (h1 : files ≠ [])
    (h2 : files.length ≤ maxUploadFiles) (h3 : order ≠ []) :
    (validateMergeInputs files order = .ok () ↔
      order.Perm ((List.range files.length).map (fun k : Nat => (k : Int))))
  ∧ ∀ (e : Error) (tmpRoot jobID : String) (now : Nat)
      (store : Nat → UploadFile → Except Error StagedMeta)
      (writeOk : Bool) (w : World),
      validateMergeInputs files order = .error e →
      prepareMergeJob tmpRoot jobID now store writeOk files order w =
        (.error (.api e), w) := by
  constructor
  · have hf0 : ¬(files.length = 0) := by
      simpa [List.length_eq_zero] using h1
    have hf20 : ¬(files.length > maxUploadFiles) := by omega
    have ho : 0 < order.length := List.length_pos.mpr h3
    rw [validateMergeInputs, if_neg hf0, if_neg hf20, if_pos ho]
    by_cases hlen : order.length ≠ files.length
    · rw [if_pos hlen]
      constructor
      · intro h; exact absurd h (by simp)
      · intro hp
        exact absurd (hp.length_eq.trans (by simp)) hlen
    · rw [if_neg hlen]
      push_neg at hlen
      rw [checkOrderEntries_ok_iff, int_perm_range_iff]
      constructor
      · rintro ⟨hb, hnd, -⟩
        refine ⟨hlen, hnd, ?_⟩
        intro x hx
        have := hb x hx
        omega
      · rintro ⟨-, hnd, hb⟩
        refine ⟨?_, hnd, fun x _ => List.not_mem_nil x⟩
        intro x hx
        have := hb x hx
        omega
  · intro e tmpRoot jobID now store writeOk w hv
    simp [prepareMergeJob, hv]

/-- C5, witnessed: two files with order [1,0] — a permutation — and
the rejection conjunct instantiated. -/
theorem merge_order_validation_spec_witness :
    ((validateMergeInputs
        [{ filename := "a.pdf", size := 5 }, { filename := "b.pdf", size := 6 }]
        [1, 0] = .ok () ↔
      ([1, 0] : List Int).Perm
        ((List.range
            ([{ filename := "a.pdf", size := 5 },
              { filename := "b.pdf", size := 6 }] :
              List UploadFile).length).map (fun k : Nat => (k : Int))))
  ∧ ∀ (e : Error) (tmpRoot jobID : String) (now : Nat)
      (store : Nat → UploadFile → Except Error StagedMeta)
      (writeOk : Bool) (w : World),
      validateMergeInputs
        [{ filename := "a.pdf", size := 5 }, { filename := "b.pdf", size := 6 }]
        [1, 0] = .error e →
      prepareMergeJob tmpRoot jobID now store writeOk
        [{ filename := "a.pdf", size := 5 }, { filename := "b.pdf", size := 6 }]
        [1, 0] w = (.error (.api e), w)) :=
  merge_order_validation_spec
    [{ filename := "a.pdf", size := 5 }, { filename := "b.pdf", size := 6 }]
    [1, 0] (by decide) (by decide) (by decide)

/-- C6: for a non-blank job id whose workspace path is a real (non-
blank) directory, whenever `RunJob` returns an error — missing or
operation-less manifest, empty staged file list, unknown operation, or
an execute-step failure — the job's workspace directory is gone from
the filesystem when the call returns; and `Result.Cleanup` (the
deferred cleanup after a successful inline response) likewise removes
the result's backing job directory. -/
theorem runJob_error_cleanup (tmpRoot jobID : String)
    (exec : OperationType → List StoredFile → Except GoErr Result)
    (w : World) (hjob : jobID ≠ "")
    (hdir : trimChars ((workspaceFor tmpRoot jobID).dir).data ≠ []) :
    (∀ (e : GoErr) (w' : World),
        runJob tmpRoot jobID exec w = (.error e, w') →
        (workspaceFor tmpRoot jobID).dir ∉ w'.dirs)
  ∧ ∀ (r : Result) (w2 : World), trimChars r.jobDir.data ≠ [] →
      r.jobDir ∉ (Result.cleanup r w2).dirs := by
  constructor
  · intro e w' h
    simp only [runJob, if_neg hjob] at h
    split at h
    · simp only [Prod.mk.injEq] at h
      exact h.2 ▸ removeDir_not_mem_dirs _ _ hdir
    · split at h
      · simp only [Prod.mk.injEq] at h
        exact h.2 ▸ removeDir_not_mem_dirs _ _ hdir
      · split at h
        · simp only [Prod.mk.injEq] at h
          exact h.2 ▸ removeDir_not_mem_dirs _ _ hdir
        · split at h
          · split at h
            · simp only [Prod.mk.injEq] at h
              exact h.2 ▸ removeDir_not_mem_dirs _ _ hdir
            · simp at h
          · simp only [Prod.mk.injEq] at h
            exact h.2 ▸ removeDir_not_mem_dirs _ _ hdir
  · intro r w2 hr
    simp only [Result.cleanup]
    exact removeDir_not_mem_dirs _ _ hr

/-- C6, witnessed: a prepared merge job whose execute step fails; the
workspace directory is absent from the returned filesystem state. -/
theorem runJob_error_cleanup_witness :
    (workspaceFor "/tmp/app" "job1").dir ∉
      (runJob "/tmp/app" "job1" (fun _ _ => .error (.internal "boom"))
        { dirs := ["/tmp/app/job1"]
          manifests := [("/tmp/app/job1",
            { jobID := "job1", operation := "merge"
              files := [{ storedName := "00.pdf", originalName := "a.pdf"
                          size := 5, pages := 2 }]
              order := [], ranges := "", preset := "", createdAt := 0 })]
          staged := [("/tmp/app/job1", "00.pdf")] }).2.dirs :=
  (runJob_error_cleanup "/tmp/app" "job1"
      (fun _ _ => .error (.internal "boom"))
      { dirs := ["/tmp/app/job1"]
        manifests := [("/tmp/app/job1",
          { jobID := "job1", operation := "merge"
            files := [{ storedName := "00.pdf", originalName := "a.pdf"
                        size := 5, pages := 2 }]
            order := [], ranges := "", preset := "", createdAt := 0 })]
        staged := [("/tmp/app/job1", "00.pdf")] }
      (by decide) (by decide)).1
    (.internal "boom") _ rfl

/-- C7: in the merge handler, when the prepared job routes async and
the Scheduler's `Schedule` call fails, the handler discards the
prepared workspace (the job directory is gone from the resulting
state) and answers with exactly that scheduling error — it neither
acknowledges the job as accepted nor streams a result. -/
theorem merge_schedule_failure_discards (tmpRoot : String)
    (opts : HandlerOptions)
    (prepare : World → Except GoErr JobManifest × World)
    (run : String → World → Except GoErr Result × World)
    (w w1 : World) (m : JobManifest)
    (sched : OperationType → String → Except GoErr Unit) (e : GoErr)
    (hprep : prepare w = (.ok m, w1))
    (hasync : shouldProcessAsync (some m) opts = true)
    (hsched : opts.scheduler = some sched)
    (hfail : sched m.operation m.jobID = .error e)
    (hjob : trimChars m.jobID.data ≠ [])
    (hdir : trimChars ((workspaceFor tmpRoot m.jobID).dir).data ≠ []) :
    mergeHandler tmpRoot opts prepare run w =
      (.failed e, discardJob tmpRoot m.jobID w1)
  ∧ (workspaceFor tmpRoot m.jobID).dir ∉
      (mergeHandler tmpRoot opts prepare run w).2.dirs := by
  have h1 : mergeHandler tmpRoot opts prepare run w =
      (.failed e, discardJob tmpRoot m.jobID w1) := by
    simp only [mergeHandler, hprep, hasync, hsched, hfail, if_pos]
  refine ⟨h1, ?_⟩
  rw [h1]
  show (workspaceFor tmpRoot m.jobID).dir ∉
    (discardJob tmpRoot m.jobID w1).dirs
  rw [discardJob, if_neg hjob]
  exact removeDir_not_mem_dirs _ _ hdir

/-- C7, witnessed: a 400-byte staged manifest over a 100-byte
threshold routes async; the scheduler refuses; the handler responds
with that error and the workspace directory is gone. -/
theorem merge_schedule_failure_discards_witness :
    mergeHandler "/tmp/app"
        { scheduler := some (fun _ _ => .error (.internal "queue down"))
          asyncThresholdBytes := 100, asyncThresholdPages := 1000 }
        (fun w => (.ok
          { jobID := "job1", operation := "merge"
            files := [{ storedName := "00.pdf", originalName := "a.pdf"
                        size := 400, pages := 3 }]
            order := [], ranges := "", preset := "", createdAt := 0 }, w))
        (fun _ w => (.error (.internal "unused"), w))
        { dirs := ["/tmp/app/job1"]
          manifests := [], staged := [("/tmp/app/job1", "00.pdf")] } =
      (.failed (.internal "queue down"),
        discardJob "/tmp/app" "job1"
          { dirs := ["/tmp/app/job1"]
            manifests := [], staged := [("/tmp/app/job1", "00.pdf")] })
  ∧ (workspaceFor "/tmp/app" "job1").dir ∉
      (mergeHandler "/tmp/app"
        { scheduler := some (fun _ _ => .error (.internal "queue down"))
          asyncThresholdBytes := 100, asyncThresholdPages := 1000 }
        (fun w => (.ok
          { jobID := "job1", operation := "merge"
            files := [{ storedName := "00.pdf", originalName := "a.pdf"
                        size := 400, pages := 3 }]
            order := [], ranges := "", preset := "", createdAt := 0 }, w))
        (fun _ w => (.error (.internal "unused"), w))
        { dirs := ["/tmp/app/job1"]
          manifests := [], staged := [("/tmp/app/job1", "00.pdf")] }).2.dirs :=
  merge_schedule_failure_discards "/tmp/app"
    { scheduler := some (fun _ _ => .error (.internal "queue down"))
      asyncThresholdBytes := 100, asyncThresholdPages := 1000 }
    (fun w => (.ok
      { jobID := "job1", operation := "merge"
        files := [{ storedName := "00.pdf", originalName := "a.pdf"
                    size := 400, pages := 3 }]
        order := [], ranges := "", preset := "", createdAt := 0 }, w))
    (fun _ w => (.error (.internal "unused"), w))
    { dirs := ["/tmp/app/job1"]
      manifests := [], staged := [("/tmp/app/job1", "00.pdf")] }
    { dirs := ["/tmp/app/job1"]
      manifests := [], staged := [("/tmp/app/job1", "00.pdf")] }
    { jobID := "job1", operation := "merge"
      files := [{ storedName := "00.pdf", originalName := "a.pdf"
                  size := 400, pages := 3 }]
      order := [], ranges := "", preset := "", createdAt := 0 }
    (fun _ _ => .error (.internal "queue down")) (.internal "queue down")
    rfl rfl rfl rfl (by decide) (by decide)
